import Mathlib

/-!
Shallow embedding of the Entropia scoring, validation and Wikipedia-conflict
subsystems (`internal/score/scorer.go`, `internal/validate/validator.go`,
`internal/extract/adapters` conflict detectors, `internal/model`), together
with theorems settling the specification claims about them.

Modelling conventions:
* Go `int` values are modelled as `Int` (list lengths as `Nat` where Go uses
  `len`); overflow is immaterial at the sizes involved (list lengths and
  day counts held in memory).
* Go `float64` arithmetic in the scorer has the exact-rational form
  `trunc((a/b)·k)` or `a/b < c` on small integer inputs, where the IEEE
  double rounding never changes the truncated result or the comparison at
  these magnitudes; it is embedded as exact integer/rational arithmetic,
  with Go's float-to-int conversion (truncation toward zero) modelled by
  `Int.tdiv`.
* `map[string]bool` sets are modelled by filtering/deduplicating lists.
* Concurrency in `Validator.Validate` (one goroutine per evidence index,
  each writing a pre-allocated slot) is modelled by a per-index oracle:
  `cancelled i` says whether goroutine `i` observed context cancellation
  before acquiring the semaphore, and `outcomes i a` gives the network
  outcome of attempt `a` of probe `i`.  Every interleaving of the Go code
  is an instance of these oracles.
* `strings.ToLower` is modelled character-wise with `Char.toLower`; the two
  agree on ASCII, which covers every keyword the scorer and the revert
  detector match on.
-/

namespace Entropia

/-- Character-list version of Go `strings.HasPrefix`, used by the
substring search below. -/
def startsWithL : List Char → List Char → Bool
  | _, [] => true
  | [], _ :: _ => false
  | a :: as, b :: bs => a == b && startsWithL as bs

/-- Character-list version of Go `strings.Contains`: does `sub` occur
contiguously inside the first list? -/
def containsSubL : List Char → List Char → Bool
  | [], sub => sub.isEmpty
  | hay@(_ :: rest), sub => startsWithL hay sub || containsSubL rest sub

/-- Go `strings.Contains(s, sub)`. -/
def strContains (s sub : String) : Bool := containsSubL s.data sub.data

/-- Go `strings.ToLower` (character-wise; agrees with Go on ASCII). -/
def toLowerStr (s : String) : String := ⟨s.data.map Char.toLower⟩

/-- Go's conversion `int(q)` of a (float-valued) quantity, which truncates
toward zero; on an exact rational this is `num.tdiv den`. -/
def truncQ (q : ℚ) : ℤ := q.num.tdiv q.den

/-! ### Data model (`internal/model`) -/

/-- `model.Claim` (`claim.go`). -/
structure Claim where
  text : String := ""
  heuristic : String := ""
  sentence : Int := 0
deriving DecidableEq

/-- `model.AuthorityTier` is a Go `int` with named constants. -/
abbrev AuthorityTier := Int

def TierUnknown : AuthorityTier := 0
def TierPrimary : AuthorityTier := 1
def TierSecondary : AuthorityTier := 2
def TierTertiary : AuthorityTier := 3

/-- `model.Evidence` (`evidence.go`); `Kind` is a string type in Go. -/
structure Evidence where
  url : String := ""
  kind : String := ""
  host : String := ""
  isSameHost : Bool := false
  authority : AuthorityTier := 0
  text : String := ""
deriving DecidableEq

/-- `model.ValidationResult` (`evidence.go`).  The parsed `LastModified`
time is carried in hours (the unit `time.Duration.Hours` exposes); field
defaults are the Go zero values. -/
structure ValidationResult where
  url : String := ""
  isAccessible : Bool := false
  statusCode : Int := 0
  lastModified : Option ℚ := none
  age : Option Int := none
  isStale : Bool := false
  isVeryStale : Bool := false
  isDead : Bool := false
  redirectURL : String := ""
  authority : AuthorityTier := 0
  error : String := ""
deriving DecidableEq

/-- `model.Signal` (`report.go`).  The free-form `Description` string and
the heterogeneous `Data` map (diagnostic payload only; no claim references
them) are not modelled. -/
structure Signal where
  type : String := ""
  severity : String := ""
deriving DecidableEq

def SignalEvidenceCoverage : String := "evidence_coverage"
def SignalAuthorityDistribution : String := "authority_distribution"
def SignalFreshness : String := "freshness"
def SignalAccessibility : String := "accessibility"
def SignalConflict : String := "conflict"
def SignalFreshnessAnomaly : String := "freshness_anomaly"
def SignalHistoricalEntity : String := "historical_entity"

def SeverityInfo : String := "info"
def SeverityWarning : String := "warning"
def SeverityCritical : String := "critical"

/-- `model.Score` (`report.go`). -/
structure Score where
  index : Int
  confidence : String
  conflict : Bool
  signals : List Signal
deriving DecidableEq

/-! ### Scorer (`internal/score/scorer.go`) -/

/-- `Scorer.calculateCoverage`.  Go computes
`score := int(math.Min(ratio*40, 40))` with `ratio := e/c` as `float64`;
exactly, `int(min(40·e/c, 40)) = min(trunc(40·e/c), 40)` since both
operands are nonnegative, and `ratio < 0.5 ↔ 2e < c`, `ratio < 1 ↔ e < c`
for `c > 0`. -/
def calculateCoverage (claims : List Claim) (evidence : List Evidence) :
    Int × Signal :=
  let claimCount : Int := claims.length
  let evidenceCount : Int := evidence.length
  if claimCount = 0 then
    (0, { type := SignalEvidenceCoverage, severity := SeverityCritical })
  else
    let score := min ((40 * evidenceCount).tdiv claimCount) 40
    let severity :=
      if 2 * evidenceCount < claimCount then SeverityCritical
      else if evidenceCount < claimCount then SeverityWarning
      else SeverityInfo
    (score, { type := SignalEvidenceCoverage, severity := severity })

/-- `Scorer.calculateAuthority`.  Go computes
`int((weightedSum/maxPossible)*30)` in `float64`; exactly this is
`trunc(30·w / (3·total))`. -/
def calculateAuthority (validation : List ValidationResult) : Int × Signal :=
  if validation.length = 0 then
    (0, { type := SignalAuthorityDistribution, severity := SeverityWarning })
  else
    let primaryCount : Int := (validation.countP (fun v => v.authority == TierPrimary) : Nat)
    let secondaryCount : Int := (validation.countP (fun v => v.authority == TierSecondary) : Nat)
    let tertiaryCount : Int := (validation.countP (fun v => v.authority == TierTertiary) : Nat)
    let total : Int := validation.length
    let weightedSum := primaryCount * 3 + secondaryCount * 2 + tertiaryCount * 1
    let score := (30 * weightedSum).tdiv (3 * total)
    let severity := if primaryCount = 0 then SeverityWarning else SeverityInfo
    (score, { type := SignalAuthorityDistribution, severity := severity })

/-- The ages (in days) of the validations carrying an `Age` value, in input
order; the `for … if v.Age != nil` loops of `calculateFreshness` and
`detectFreshnessAnomaly`. -/
def agesOf (validation : List ValidationResult) : List Int :=
  validation.filterMap (fun v => v.age)

/-- `sort.Ints(ages)`: the ascending sort of the collected ages. -/
def sortedAgesOf (validation : List ValidationResult) : List Int :=
  (agesOf validation).insertionSort (· ≤ ·)

/-- `medianAge := ages[len(ages)/2]` computed by both `calculateFreshness`
and `detectFreshnessAnomaly` (the `getD` default is never reached: both
callers guard on a nonempty age list). -/
def medianAgeOf (validation : List ValidationResult) : Int :=
  (sortedAgesOf validation).getD ((agesOf validation).length / 2) 0

/-- `Scorer.calculateFreshness`.  Go computes
`score := 20 - int(medianAgeYears*5)` with `medianAgeYears := m/365.0`;
exactly `int(m/365·5) = trunc(5m/365)`, and the severity comparisons
`m/365 > 3` and `m/365 > 1` are `m > 1095` and `m > 365`. -/
def calculateFreshness (validation : List ValidationResult) : Int × Signal :=
  let ages := agesOf validation
  if ages.length = 0 then
    (10, { type := SignalFreshness, severity := SeverityInfo })
  else
    let medianAge := medianAgeOf validation
    let score0 := 20 - (5 * medianAge).tdiv 365
    let score := if score0 < 0 then 0 else score0
    let severity :=
      if 1095 < medianAge then SeverityCritical
      else if 365 < medianAge then SeverityWarning
      else SeverityInfo
    (score, { type := SignalFreshness, severity := severity })

/-- `Scorer.calculateAccessibility`.  Go computes `int(ratio*10)` with
`ratio := accessible/total` in `float64`; exactly `trunc(10·a/t)`, and
`ratio < 0.5 ↔ 2a < t`, `ratio < 0.8 ↔ 5a < 4t`. -/
def calculateAccessibility (validation : List ValidationResult) : Int × Signal :=
  if validation.length = 0 then
    (0, { type := SignalAccessibility, severity := SeverityWarning })
  else
    let accessibleCount : Int := (validation.countP (fun v => v.isAccessible) : Nat)
    let total : Int := validation.length
    let score := (10 * accessibleCount).tdiv total
    let severity :=
      if 2 * accessibleCount < total then SeverityCritical
      else if 5 * accessibleCount < 4 * total then SeverityWarning
      else SeverityInfo
    (score, { type := SignalAccessibility, severity := severity })

/-- The fixed country lexicon scanned inside origin claims by
`Scorer.detectConflict`. -/
def conflictCountries : List String :=
  ["malaysia", "indonesia", "england", "wales", "uk", "britain",
   "china", "india", "thailand"]

/-- Is this an origin-related claim (`lower` contains `origin` or
`originated`)? -/
def isOriginClaim (c : Claim) : Bool :=
  let lower := toLowerStr c.text
  strContains lower "origin" || strContains lower "originated"

/-- `Scorer.detectConflict`.  The Go `countries map[string]bool` holds the
distinct lexicon entries found inside some origin claim; its size is the
number of lexicon entries (all distinct) that occur in at least one origin
claim. -/
def detectConflict (claims : List Claim) : Bool × Signal :=
  let originClaims := claims.filter (fun c => isOriginClaim c)
  let countries := conflictCountries.filter
    (fun country => originClaims.any (fun c => strContains (toLowerStr c.text) country))
  let conflictDetected := 2 ≤ countries.length ∧ 2 ≤ originClaims.length
  if conflictDetected then
    (true, { type := SignalConflict, severity := SeverityWarning })
  else
    (false, { type := "", severity := "" })

/-- `Scorer.detectFreshnessAnomaly`.  The anomaly branch condition is
`medianAgeYears < 1.0 && len(ages) > 50`, i.e. `medianAge < 365` and
strictly more than 50 ages; `totalEvidence` only feeds the (unmodelled)
diagnostic `Data` map. -/
def detectFreshnessAnomaly (validation : List ValidationResult)
    (totalEvidence : Nat) : Signal :=
  let ages := agesOf validation
  if ages.length < 20 then { type := "", severity := "" }
  else
    let medianAge := medianAgeOf validation
    if medianAge < 365 ∧ 50 < ages.length then
      { type := SignalFreshnessAnomaly, severity := SeverityWarning }
    else { type := "", severity := "" }

/-- `Scorer.determineConfidence`. -/
def determineConfidence (score : Int) (evidenceCount : Nat) (conflict : Bool) :
    String :=
  if conflict then "low-medium"
  else if evidenceCount < 3 then "low"
  else if 80 ≤ score then "high"
  else if 60 ≤ score then "medium"
  else "low"

/-- `Scorer.Calculate`.  The Go pair assignments
`coverageScore, coverageSignal := …` are carried as `.1`/`.2` of the pair
each helper returns. -/
def Calculate (claims : List Claim) (evidence : List Evidence)
    (validation : List ValidationResult) : Score :=
  let coverage := calculateCoverage claims evidence
  let authority := calculateAuthority validation
  let freshness := calculateFreshness validation
  let access := calculateAccessibility validation
  let conflict := detectConflict claims
  let freshnessAnomalySignal := detectFreshnessAnomaly validation evidence.length
  let signals :=
    [coverage.2, authority.2, freshness.2, access.2]
      ++ (if conflict.1 then [conflict.2] else [])
      ++ (if freshnessAnomalySignal.type ≠ "" then [freshnessAnomalySignal] else [])
  let totalScore := coverage.1 + authority.1 + freshness.1 + access.1
  let totalScore :=
    if conflict.1 then
      if totalScore - 10 < 0 then 0 else totalScore - 10
    else totalScore
  { index := totalScore
    confidence := determineConfidence totalScore evidence.length conflict.1
    conflict := conflict.1
    signals := signals }

/-! ### Validator (`internal/validate/validator.go`) -/

/-- The environment's answer to one HTTP probe of one evidence URL.
`createError` = `http.NewRequestWithContext` failed; `networkError` =
`httpClient.Do` failed; `ok` = a response arrived.  `lastModified` is the
RFC1123-parsed `Last-Modified` instant in hours (`none` when the header is
absent or unparseable). -/
structure HTTPResponse where
  statusCode : Int
  finalURL : String
  lastModified : Option ℚ := none
deriving DecidableEq

inductive ProbeOutcome where
  | createError (msg : String)
  | networkError (msg : String)
  | ok (resp : HTTPResponse)
deriving DecidableEq

/-- `validateMaxRetries = 3`. -/
def validateMaxRetries : Nat := 3

/-- `Validator.validateSingle`, given the probe outcome supplied by the
environment and the current time in hours.  `classify` is
`AuthorityClassifier.Classify`. -/
def validateSingle (classify : String → AuthorityTier) (nowHours : ℚ)
    (evidence : Evidence) (outcome : ProbeOutcome) : ValidationResult :=
  let result : ValidationResult :=
    { url := evidence.url, isAccessible := false, authority := classify evidence.url }
  match outcome with
  | .createError msg =>
      { result with error := "create request: " ++ msg, isDead := true }
  | .networkError msg =>
      { result with error := "request failed: " ++ msg, isDead := true }
  | .ok resp =>
      let result := { result with statusCode := resp.statusCode }
      let result :=
        if 200 ≤ resp.statusCode ∧ resp.statusCode < 400 then
          { result with isAccessible := true }
        else if resp.statusCode = 404 ∨ resp.statusCode = 410 then
          { result with isDead := true }
        else result
      let result :=
        if resp.finalURL ≠ evidence.url then { result with redirectURL := resp.finalURL }
        else result
      match resp.lastModified with
      | none => result
      | some t =>
          let ageDays := truncQ ((nowHours - t) / 24)
          { result with
            lastModified := some t
            age := some ageDays
            isStale := decide (365 < ageDays)
            isVeryStale := decide (365 * 3 < ageDays) }

/-- `isRetryableNetworkError`. -/
def isRetryableNetworkError (errMsg : String) : Bool :=
  let s := toLowerStr errMsg
  strContains s "timeout" || strContains s "connection refused" ||
    strContains s "connection reset"

/-- `isRetryableValidationResult`. -/
def isRetryableValidationResult (result : ValidationResult) : Bool :=
  if 500 ≤ result.statusCode ∧ result.statusCode < 600 then true
  else if result.statusCode = 429 then true
  else if result.error ≠ "" then isRetryableNetworkError result.error
  else false

/-- Observable trace of `validateSingleWithRetry`: the returned result, how
many probe attempts ran, and the seconds slept between attempts. -/
structure RetryTrace where
  result : ValidationResult
  attempts : Nat
  sleeps : List Nat
deriving DecidableEq

/-- The `for attempt := 0; attempt < validateMaxRetries; attempt++` loop of
`validateSingleWithRetry`, unrolled on the number of attempts still allowed
after the current one.  With `fuel = 0` this is the final attempt: its
result is returned whether or not it is retryable (exactly the Go loop
falling through to `return result`) and the `attempt < maxRetries-1` guard
skips the sleep.  The backoff slept before attempt `attempt+1` is
`1<<attempt` seconds. -/
def retryFrom (probe : Nat → ValidationResult) : Nat → Nat → RetryTrace
  | attempt, 0 => { result := probe attempt, attempts := attempt + 1, sleeps := [] }
  | attempt, fuel + 1 =>
      let r := probe attempt
      if isRetryableValidationResult r then
        let rest := retryFrom probe (attempt + 1) fuel
        { result := rest.result, attempts := rest.attempts,
          sleeps := 2 ^ attempt :: rest.sleeps }
      else { result := r, attempts := attempt + 1, sleeps := [] }

/-- `Validator.validateSingleWithRetry`, instrumented with attempt count
and sleeps; `outcomes a` is the probe outcome of attempt `a`. -/
def validateSingleWithRetry (classify : String → AuthorityTier)
    (outcomes : Nat → ProbeOutcome) (nowHours : ℚ) (evidence : Evidence) :
    RetryTrace :=
  retryFrom (fun attempt => validateSingle classify nowHours evidence (outcomes attempt))
    0 (validateMaxRetries - 1)

/-- The zero-valued result written for a goroutine that observed context
cancellation before acquiring the semaphore:
`model.ValidationResult{URL: e.URL, IsAccessible: false, Error: "context cancelled"}`. -/
def cancelledResult (e : Evidence) : ValidationResult :=
  { url := e.url, isAccessible := false, error := "context cancelled" }

/-- `Validator.Validate`: one goroutine per evidence index writes the
pre-allocated slot `results[idx]`; `cancelled i` says whether goroutine `i`
hit the `<-ctx.Done()` arm of its select, and `outcomes i a` is the network
outcome of attempt `a` of probe `i`. -/
def Validate (classify : String → AuthorityTier)
    (outcomes : Nat → Nat → ProbeOutcome) (nowHours : ℚ)
    (cancelled : Nat → Bool) (evidence : List Evidence) :
    List ValidationResult :=
  if evidence.length = 0 then []
  else
    List.ofFn (fun i : Fin evidence.length =>
      if cancelled i then cancelledResult (evidence.get i)
      else (validateSingleWithRetry classify (outcomes i) nowHours (evidence.get i)).result)

/-! ### Wikipedia conflict module (`internal/extract/adapters`) -/

/-- `WikipediaRevision`; the RFC3339 `Timestamp` string is carried as its
parse outcome in seconds (`none` = `time.Parse` error). -/
structure WikipediaRevision where
  revid : Int := 0
  timestamp : Option Int := none
  user : String := ""
  comment : String := ""
  size : Int := 0
deriving DecidableEq

/-- `EditWarIndicators`; `lastEditTime` carries the zero `time.Time` as
`none`, and `editFrequency` is the exact value of the float computation. -/
structure EditWarIndicators where
  recentEdits : Nat := 0
  revertCount : Nat := 0
  uniqueEditors : Nat := 0
  editFrequency : ℚ := 0
  isHighConflict : Bool := false
  lastEditTime : Option Int := none
  conflictSeverity : String := ""
deriving DecidableEq

/-- The revert test applied to each revision comment:
`strings.Contains(comment, "revert") || "rv " || "undo" || "undid"` on the
lowercased comment. -/
def isRevertComment (comment : String) : Bool :=
  let c := toLowerStr comment
  strContains c "revert" || strContains c "rv " ||
    strContains c "undo" || strContains c "undid"

/-- The revisions surviving the `time.Parse` guard (a parse error is a
`continue` before any counting), paired with their parsed times, in input
order. -/
def parsedRevisions (revisions : List WikipediaRevision) :
    List (Int × WikipediaRevision) :=
  revisions.filterMap (fun r => r.timestamp.map (fun t => (t, r)))

/-- `analyzeRevisions` (`wikipedia_conflict.go`), with `now` in seconds.
The single Go loop: a revision enters `recentEdits`/`editorsMap`/
`LastEditTime` only when `t.After(thirtyDaysAgo)`, while the revert test
runs on every revision that survived the parse guard, windowed or not.
`LastEditTime` ends as the maximum recent time; `oldestEdit` re-parses the
last element of `recentEdits` (always parseable); the severity ladder is
copied verbatim. -/
def analyzeRevisions (now : Int) (revisions : List WikipediaRevision) :
    EditWarIndicators :=
  let thirtyDaysAgo : Int := now - 30 * 24 * 3600
  let parsed := parsedRevisions revisions
  let recent := parsed.filter (fun p => thirtyDaysAgo < p.1)
  let revertCount := (parsed.filter (fun p => isRevertComment p.2.comment)).length
  let recentEdits := recent.length
  let uniqueEditors := ((recent.map (fun p => p.2.user)).dedup).length
  let lastEditTime := (recent.map (fun p => p.1)).max?
  let editFrequency : ℚ :=
    match recent.getLast? with
    | none => 0
    | some oldest =>
        let daysSinceOldest : ℚ := ((now : ℚ) - (oldest.1 : ℚ)) / 3600 / 24
        if 0 < daysSinceOldest then (recentEdits : ℚ) / daysSinceOldest else 0
  let (isHighConflict, conflictSeverity) :=
    if (10 < recentEdits ∧ 3 < revertCount) ∨ 5 < editFrequency then (true, "high")
    else if (5 < recentEdits ∧ 1 < revertCount) ∨ 2 < editFrequency then (true, "medium")
    else if 0 < revertCount then (false, "low")
    else (false, "")
  { recentEdits := recentEdits
    revertCount := revertCount
    uniqueEditors := uniqueEditors
    editFrequency := editFrequency
    isHighConflict := isHighConflict
    lastEditTime := lastEditTime
    conflictSeverity := conflictSeverity }

/-- `HistoricalEntity` (`wikipedia_conflict.go`). -/
structure HistoricalEntity where
  name : String
  aliases : List String
  endYear : Int
  description : String
deriving DecidableEq

/-- The fixed catalog `historicalEntities`. -/
def historicalEntities : List HistoricalEntity :=
  [ { name := "Kyivan Rus"
      aliases := ["Киевская Русь", "Kievan Rus", "Kievan Rus'", "Kiev Rus"]
      endYear := 1240
      description := "Medieval East Slavic state (9th-13th century)" },
    { name := "USSR"
      aliases := ["Soviet Union", "СССР", "Советский Союз", "CCCP"]
      endYear := 1991
      description := "Soviet Union (1922-1991)" },
    { name := "Yugoslavia"
      aliases := ["Jugoslavija", "Југославија", "SFRY", "SFR Yugoslavia"]
      endYear := 1992
      description := "Socialist Federal Republic of Yugoslavia (1945-1992)" },
    { name := "Czechoslovakia"
      aliases := ["Československo", "ČSSR"]
      endYear := 1993
      description := "Czechoslovakia (1918-1993)" },
    { name := "Ottoman Empire"
      aliases := ["Osmanlı", "Османская империя"]
      endYear := 1922
      description := "Ottoman Empire (1299-1922)" },
    { name := "Austria-Hungary"
      aliases := ["Austro-Hungarian Empire", "Österreich-Ungarn"]
      endYear := 1918
      description := "Austria-Hungary (1867-1918)" },
    { name := "Polish-Lithuanian Commonwealth"
      aliases := ["Commonwealth", "Rzeczpospolita Obojga Narodów"]
      endYear := 1795
      description := "Polish-Lithuanian Commonwealth (1569-1795)" },
    { name := "Grand Duchy of Lithuania"
      aliases := ["Lietuvos Didžioji Kunigaikštystė"]
      endYear := 1795
      description := "Grand Duchy of Lithuania (1236-1795)" } ]

/-- `HistoricalEntityConflict`; the ≤50-character `Context` snippets (byte
windows of the raw text, diagnostic only) are not modelled. -/
structure HistoricalEntityConflict where
  entity : HistoricalEntity
  occurrences : Nat
deriving DecidableEq

/-- `DetectHistoricalEntities`: an entity is reported when its primary name
or any alias occurs (case-insensitively) in the text; `occurrences` counts
how many of its names matched. -/
def DetectHistoricalEntities (text : String) : List HistoricalEntityConflict :=
  let textLower := toLowerStr text
  historicalEntities.filterMap (fun entity =>
    let names := entity.name :: entity.aliases
    let occurrences := (names.filter (fun n => strContains textLower (toLowerStr n))).length
    if 0 < occurrences then some { entity := entity, occurrences := occurrences }
    else none)

/-- Modelled from the spec: the pipeline step that turns detected historical
entities into `historical_entity` signals is not among the provided sources
(only the detector, the signal-type constant and a demo caller are).  Per
the spec, it emits a signal only for entities whose `end_year` is more than
30 years before the current year. -/
def emitHistoricalEntitySignals (currentYear : Int) (text : String) :
    List HistoricalEntityConflict :=
  (DetectHistoricalEntities text).filter
    (fun c => 30 < currentYear - c.entity.endYear)

/-! ### Shared helper lemmas -/

lemma ratio_lt_half_iff (e c : ℕ) (hc : 0 < c) :
    ((e : ℚ) / c < 1 / 2) ↔ 2 * e < c := by
  rw [div_lt_iff₀ (by positivity), show (1 : ℚ) / 2 * c = (c : ℚ) / 2 by ring,
    lt_div_iff₀ (by norm_num : (0 : ℚ) < 2)]
  constructor
  · intro h
    have h2 : ((2 * e : ℕ) : ℚ) < (c : ℚ) := by push_cast; linarith
    exact_mod_cast h2
  · intro h
    have h2 : ((2 * e : ℕ) : ℚ) < (c : ℚ) := by exact_mod_cast h
    push_cast at h2; linarith

lemma ratio_lt_one_iff (e c : ℕ) (hc : 0 < c) :
    ((e : ℚ) / c < 1) ↔ e < c := by
  rw [div_lt_one (by positivity)]
  exact_mod_cast Iff.rfl

/-- Whatever its severity branch, the coverage signal's type is fixed. -/
lemma coverage_signal_type (claims : List Claim) (evidence : List Evidence) :
    (calculateCoverage claims evidence).2.type = SignalEvidenceCoverage := by
  unfold calculateCoverage
  dsimp only
  split_ifs <;> rfl

lemma authority_signal_type (validation : List ValidationResult) :
    (calculateAuthority validation).2.type = SignalAuthorityDistribution := by
  unfold calculateAuthority
  dsimp only
  split_ifs <;> rfl

lemma freshness_signal_type (validation : List ValidationResult) :
    (calculateFreshness validation).2.type = SignalFreshness := by
  unfold calculateFreshness
  dsimp only
  split_ifs <;> rfl

lemma accessibility_signal_type (validation : List ValidationResult) :
    (calculateAccessibility validation).2.type = SignalAccessibility := by
  unfold calculateAccessibility
  dsimp only
  split_ifs <;> rfl

lemma conflict_signal_type (claims : List Claim) :
    (detectConflict claims).1 = true →
      (detectConflict claims).2.type = SignalConflict := by
  unfold detectConflict
  dsimp only
  split_ifs <;> simp

/-- The anomaly detector returns either the empty signal or the
freshness-anomaly warning. -/
lemma anomaly_signal_cases (validation : List ValidationResult) (n : Nat) :
    detectFreshnessAnomaly validation n =
        { type := SignalFreshnessAnomaly, severity := SeverityWarning }
      ∨ detectFreshnessAnomaly validation n = { type := "", severity := "" } := by
  unfold detectFreshnessAnomaly
  dsimp only
  split_ifs <;> simp

/-- The anomaly signal fires exactly on strictly more than 50 known ages
with median below 365 days (the `len(ages) < 20` early return is subsumed
by `50 < len`). -/
lemma anomaly_fires_iff (validation : List ValidationResult) (n : Nat) :
    (detectFreshnessAnomaly validation n).type = SignalFreshnessAnomaly ↔
      50 < (agesOf validation).length ∧ medianAgeOf validation < 365 := by
  unfold detectFreshnessAnomaly
  dsimp only
  split_ifs with h1 h2
  · constructor
    · intro h; exact absurd h (by decide)
    · intro h; exact absurd h.1 (by omega)
  · exact ⟨fun _ => ⟨h2.2, h2.1⟩, fun _ => rfl⟩
  · constructor
    · intro h; exact absurd h (by decide)
    · intro h; exact absurd ⟨h.2, h.1⟩ h2

/-! ### Claim theorems -/

/-- C1 (code bug): the claim `0 ≤ index ≤ 100 with the four sub-scores
clamped at 40/30/20/10` fails on the code.  `calculateFreshness` clamps
its score only from below, so a negative median age (a future
`Last-Modified` header makes the validator emit a negative `age_days`)
pushes the freshness sub-score above its 20-point cap, and `Calculate`
never clamps the total from above: on one claim, one evidence link and one
accessible primary validation of age −730 days, the freshness sub-score is
30 and the returned index is 110. -/
theorem calculate_index_exceeds_100 :
    (calculateFreshness
        [{ url := "https://e", isAccessible := true, statusCode := 200,
           age := some (-730), authority := TierPrimary }]).1 = 30
    ∧ (Calculate [{ text := "a" }] [{ url := "https://e" }]
        [{ url := "https://e", isAccessible := true, statusCode := 200,
           age := some (-730), authority := TierPrimary }]).index = 110 := by
  decide

/-- C6: for `|claims| = 0` the coverage sub-score is 0 with a critical
signal; for `|claims| > 0` it is `min(40, floor(40·|evidence|/|claims|))`,
and the signal severity is critical when the evidence-to-claim ratio is
below 0.5, warning when below 1.0, and info otherwise. -/
theorem coverage_score_matches_spec (claims : List Claim)
    (evidence : List Evidence) :
    (claims.length = 0 →
      calculateCoverage claims evidence =
        (0, { type := SignalEvidenceCoverage, severity := SeverityCritical }))
    ∧ (0 < claims.length →
        (calculateCoverage claims evidence).1 =
            min 40 (((40 * evidence.length) / claims.length : ℕ) : ℤ)
          ∧ ((calculateCoverage claims evidence).2.severity = SeverityCritical ↔
              (evidence.length : ℚ) / claims.length < 1 / 2)
          ∧ ((calculateCoverage claims evidence).2.severity = SeverityWarning ↔
              ¬((evidence.length : ℚ) / claims.length < 1 / 2)
                ∧ (evidence.length : ℚ) / claims.length < 1)
          ∧ ((calculateCoverage claims evidence).2.severity = SeverityInfo ↔
              ¬((evidence.length : ℚ) / claims.length < 1))) := by
  constructor
  · intro h
    unfold calculateCoverage
    dsimp only
    rw [if_pos (by exact_mod_cast h)]
  · intro h
    have hne : ¬((claims.length : ℤ) = 0) := by exact_mod_cast Nat.pos_iff_ne_zero.mp h
    have hhalfZ : (2 * (evidence.length : ℤ) < (claims.length : ℤ)) ↔
        ((evidence.length : ℚ) / claims.length < 1 / 2) := by
      rw [ratio_lt_half_iff evidence.length claims.length h]
      exact_mod_cast Iff.rfl
    have honeZ : ((evidence.length : ℤ) < (claims.length : ℤ)) ↔
        ((evidence.length : ℚ) / claims.length < 1) := by
      rw [ratio_lt_one_iff evidence.length claims.length h]
      exact_mod_cast Iff.rfl
    unfold calculateCoverage
    dsimp only
    rw [if_neg hne]
    have hs : (if 2 * (evidence.length : ℤ) < (claims.length : ℤ) then SeverityCritical
          else if (evidence.length : ℤ) < (claims.length : ℤ) then SeverityWarning
          else SeverityInfo) =
        (if (evidence.length : ℚ) / claims.length < 1 / 2 then SeverityCritical
          else if (evidence.length : ℚ) / claims.length < 1 then SeverityWarning
          else SeverityInfo) :=
      if_congr hhalfZ rfl (if_congr honeZ rfl rfl)
    refine ⟨?_, ?_, ?_, ?_⟩
    · show min ((40 * (evidence.length : ℤ)).tdiv claims.length) 40 = _
      rw [show (40 * (evidence.length : ℤ)) = ((40 * evidence.length : ℕ) : ℤ) by push_cast; ring]
      rw [← Int.ofNat_tdiv]
      exact min_comm _ _
    · dsimp only
      rw [hs]
      split_ifs with h1 h2
      · exact ⟨fun _ => h1, fun _ => rfl⟩
      · exact ⟨fun hx => absurd hx (by decide), fun hx => absurd hx h1⟩
      · exact ⟨fun hx => absurd hx (by decide), fun hx => absurd hx h1⟩
    · dsimp only
      rw [hs]
      split_ifs with h1 h2
      · exact ⟨fun hx => absurd hx (by decide), fun hx => absurd h1 hx.1⟩
      · exact ⟨fun _ => ⟨h1, h2⟩, fun _ => rfl⟩
      · exact ⟨fun hx => absurd hx (by decide), fun hx => absurd hx.2 h2⟩
    · dsimp only
      rw [hs]
      split_ifs with h1 h2
      · exact ⟨fun hx => absurd hx (by decide),
          fun hx => absurd (lt_trans h1 (by norm_num)) hx⟩
      · exact ⟨fun hx => absurd hx (by decide), fun hx => absurd h2 hx⟩
      · exact ⟨fun _ => h2, fun _ => rfl⟩

/-- Witness for C6 at one claim and no evidence: the ratio 0 is below 0.5,
so the coverage signal is critical and the score is 0. -/
theorem coverage_score_matches_spec_witness :
    (0 : ℕ) < ([{ text := "c" }] : List Claim).length
    ∧ (calculateCoverage [{ text := "c" }] []).2.severity = SeverityCritical :=
  ⟨by decide,
    ((coverage_score_matches_spec [{ text := "c" }] []).2 (by decide)).2.1.mpr
      (by norm_num)⟩

/-- C7: confidence classification applies conflict first (`low-medium`
regardless of index), then the evidence-count floor (`low` when fewer than
3 evidence entries), then the index buckets (≥80 high, ≥60 medium, else
low). -/
theorem confidence_priority_order (score : Int) (evidenceCount : Nat) :
    (determineConfidence score evidenceCount true = "low-medium")
    ∧ (evidenceCount < 3 → determineConfidence score evidenceCount false = "low")
    ∧ (3 ≤ evidenceCount → 80 ≤ score →
        determineConfidence score evidenceCount false = "high")
    ∧ (3 ≤ evidenceCount → 60 ≤ score → score < 80 →
        determineConfidence score evidenceCount false = "medium")
    ∧ (3 ≤ evidenceCount → score < 60 →
        determineConfidence score evidenceCount false = "low") := by
  unfold determineConfidence
  refine ⟨rfl, ?_, ?_, ?_, ?_⟩
  · intro h
    rw [if_neg Bool.false_ne_true, if_pos h]
  · intro h1 h2
    rw [if_neg Bool.false_ne_true, if_neg (by omega), if_pos h2]
  · intro h1 h2 h3
    rw [if_neg Bool.false_ne_true, if_neg (by omega), if_neg (by omega), if_pos h2]
  · intro h1 h2
    rw [if_neg Bool.false_ne_true, if_neg (by omega), if_neg (by omega), if_neg (by omega)]

/-- Witness for C7: a conflict-free score of 85 with 5 evidence entries is
classified `high`. -/
theorem confidence_priority_order_witness :
    determineConfidence 85 5 false = "high" :=
  (confidence_priority_order 85 5).2.2.1 (by decide) (by decide)

/-- C3 (counterexample): fifty validations all of age 0 satisfy the
claim's trigger — at least 50 known ages (exactly 50) with median 0, far
below 365 — yet the detector returns the empty signal, because the code
requires strictly more than 50 ages (`len(ages) > 50`). -/
theorem freshness_anomaly_at_exactly_50_cex :
    (detectFreshnessAnomaly
        (List.replicate 50 ({ age := some 0 } : ValidationResult)) 50).type = ""
    ∧ (agesOf (List.replicate 50 ({ age := some 0 } : ValidationResult))).length = 50
    ∧ medianAgeOf (List.replicate 50 ({ age := some 0 } : ValidationResult)) = 0
    ∧ (detectFreshnessAnomaly
        (List.replicate 51 ({ age := some 0 } : ValidationResult)) 51).type
        = SignalFreshnessAnomaly := by
  refine ⟨by decide, by decide, by decide, by decide⟩

/-- C3 (amended): a `freshness_anomaly` warning signal is appended exactly
when strictly more than 50 validations carry a known age and the median of
those ages is below 365 days; the numeric index is computed from the four
sub-scores and the conflict penalty alone, so the anomaly signal never
changes it. -/
theorem freshness_anomaly_more_than_50 (claims : List Claim)
    (evidence : List Evidence) (validation : List ValidationResult) :
    ((∃ s ∈ (Calculate claims evidence validation).signals,
        s.type = SignalFreshnessAnomaly) ↔
      50 < (agesOf validation).length ∧ medianAgeOf validation < 365)
    ∧ (Calculate claims evidence validation).index =
        (if (detectConflict claims).1 then
          (if (calculateCoverage claims evidence).1 + (calculateAuthority validation).1
              + (calculateFreshness validation).1 + (calculateAccessibility validation).1
              - 10 < 0 then 0
          else (calculateCoverage claims evidence).1 + (calculateAuthority validation).1
              + (calculateFreshness validation).1 + (calculateAccessibility validation).1
              - 10)
        else (calculateCoverage claims evidence).1 + (calculateAuthority validation).1
            + (calculateFreshness validation).1 + (calculateAccessibility validation).1) := by
  constructor
  · unfold Calculate
    dsimp only
    constructor
    · rintro ⟨s, hs, hty⟩
      rw [← anomaly_fires_iff validation evidence.length]
      rcases List.mem_append.mp hs with hs' | hs'
      · rcases List.mem_append.mp hs' with hs4 | hsc
        · simp only [List.mem_cons, List.not_mem_nil, or_false] at hs4
          rcases hs4 with rfl | rfl | rfl | rfl
          · exact absurd ((coverage_signal_type claims evidence).symm.trans hty) (by decide)
          · exact absurd ((authority_signal_type validation).symm.trans hty) (by decide)
          · exact absurd ((freshness_signal_type validation).symm.trans hty) (by decide)
          · exact absurd ((accessibility_signal_type validation).symm.trans hty) (by decide)
        · by_cases hc : (detectConflict claims).1 = true
          · rw [if_pos hc] at hsc
            simp only [List.mem_cons, List.not_mem_nil, or_false] at hsc
            rcases hsc with rfl
            exact absurd ((conflict_signal_type claims hc).symm.trans hty) (by decide)
          · rw [if_neg hc] at hsc
            exact absurd hsc (List.not_mem_nil s)
      · by_cases ha : (detectFreshnessAnomaly validation evidence.length).type ≠ ""
        · rw [if_pos ha] at hs'
          simp only [List.mem_cons, List.not_mem_nil, or_false] at hs'
          rcases hs' with rfl
          exact hty
        · rw [if_neg ha] at hs'
          exact absurd hs' (List.not_mem_nil s)
    · intro hcond
      have hty := (anomaly_fires_iff validation evidence.length).mpr hcond
      refine ⟨detectFreshnessAnomaly validation evidence.length, ?_, hty⟩
      refine List.mem_append.mpr (Or.inr ?_)
      rw [if_pos (show (detectFreshnessAnomaly validation evidence.length).type ≠ "" by
        rw [hty]; decide)]
      exact List.mem_singleton.mpr rfl
  · unfold Calculate
    dsimp only

/-- C10: both the freshness sub-score and the anomaly check read the
median as the element at index `n/2` of the ascending-sorted ages — the
true middle for odd `n`, the upper of the two middles for even `n`, never
their average — and the choice is observable: on ages `[0, 730]` the code
scores 10 with a warning (median 730) where the average convention
(median 365) would score 15 with info severity, and on 26 ages of 0 plus
26 of 366 the anomaly stays silent (median 366 ≥ 365) where the average
convention (median 183 < 365) would fire it. -/
theorem median_upper_middle_convention :
    (∀ (v : List ValidationResult) (k : Nat), (agesOf v).length = 2 * k + 1 →
      medianAgeOf v = (sortedAgesOf v).getD k 0)
    ∧ (∀ (v : List ValidationResult) (k : Nat), (agesOf v).length = 2 * k →
      medianAgeOf v = (sortedAgesOf v).getD k 0)
    ∧ (∀ v : List ValidationResult, (agesOf v).length ≠ 0 →
        (calculateFreshness v).1 =
          (if 20 - (5 * medianAgeOf v).tdiv 365 < 0 then 0
            else 20 - (5 * medianAgeOf v).tdiv 365))
    ∧ (∀ (v : List ValidationResult) (n : Nat),
        (detectFreshnessAnomaly v n).type = SignalFreshnessAnomaly ↔
          50 < (agesOf v).length ∧ medianAgeOf v < 365)
    ∧ (calculateFreshness [{ age := some 0 }, { age := some 730 }]).1 = 10
    ∧ (calculateFreshness [{ age := some 0 }, { age := some 730 }]).2.severity
        = SeverityWarning
    ∧ medianAgeOf [{ age := some 0 }, { age := some 730 }] = 730
    ∧ (sortedAgesOf [{ age := some 0 }, { age := some 730 }]).getD 0 0 = 0
    ∧ (20 - (5 * (((0 : ℤ) + 730) / 2)).tdiv 365 = 15 ∧ ¬(365 < ((0 : ℤ) + 730) / 2))
    ∧ (detectFreshnessAnomaly
        (List.replicate 26 ({ age := some 0 } : ValidationResult)
          ++ List.replicate 26 ({ age := some 366 } : ValidationResult)) 52).type = ""
    ∧ medianAgeOf
        (List.replicate 26 ({ age := some 0 } : ValidationResult)
          ++ List.replicate 26 ({ age := some 366 } : ValidationResult)) = 366
    ∧ (sortedAgesOf
        (List.replicate 26 ({ age := some 0 } : ValidationResult)
          ++ List.replicate 26 ({ age := some 366 } : ValidationResult))).getD 25 0 = 0
    ∧ (((0 : ℤ) + 366) / 2 < 365) := by
  refine ⟨?_, ?_, ?_, anomaly_fires_iff, by decide, by decide, by decide, by decide,
    ⟨by decide, by decide⟩, by decide, by decide, by decide, by decide⟩
  · intro v k h
    unfold medianAgeOf
    rw [h, show (2 * k + 1) / 2 = k by omega]
  · intro v k h
    unfold medianAgeOf
    rw [h, show (2 * k) / 2 = k by omega]
  · intro v h
    unfold calculateFreshness
    dsimp only
    rw [if_neg h]

/-- Witness for C10 at a concrete odd-length and a concrete even-length
age list: on `[5, 7, 9]` the median is the true middle 7, and on the
even list `[0, 730]` it is the upper middle 730. -/
theorem median_upper_middle_convention_witness :
    medianAgeOf [{ age := some 5 }, { age := some 7 }, { age := some 9 }]
        = (sortedAgesOf [{ age := some 5 }, { age := some 7 }, { age := some 9 }]).getD 1 0
    ∧ medianAgeOf [{ age := some 0 }, { age := some 730 }]
        = (sortedAgesOf [{ age := some 0 }, { age := some 730 }]).getD 1 0 :=
  ⟨median_upper_middle_convention.1
      [{ age := some 5 }, { age := some 7 }, { age := some 9 }] 1 (by decide),
    median_upper_middle_convention.2.1
      [{ age := some 0 }, { age := some 730 }] 1 (by decide)⟩

/-- Helper for C4: filtering the parse-surviving revisions by the revert
test counts exactly the revisions that both parsed and match the revert
markers. -/
lemma parsed_revert_filter_length (revisions : List WikipediaRevision) :
    ((parsedRevisions revisions).filter
        (fun p => isRevertComment p.2.comment)).length =
      (revisions.filter
        (fun r => r.timestamp.isSome && isRevertComment r.comment)).length := by
  induction revisions with
  | nil => rfl
  | cons r rest ih =>
      cases h : r.timestamp with
      | none =>
          simp only [parsedRevisions, List.filterMap_cons, h, Option.map_none',
            List.filter_cons, Option.isSome_none, Bool.false_and]
          simpa [parsedRevisions] using ih
      | some t =>
          simp only [parsedRevisions, List.filterMap_cons, h, Option.map_some',
            List.filter_cons, Option.isSome_some, Bool.true_and]
          by_cases hr : isRevertComment r.comment
          · simp only [hr, if_pos]
            simpa [parsedRevisions, List.length_cons] using ih
          · simp only [hr]
            simpa [parsedRevisions] using ih

/-- C4 (counterexample): a single fetched revision 60 days old (timestamp
94816000 against `now` = 100000000, window cutoff 97408000) whose comment
is `Revert edits` is outside the 30-day window — `recent_edits` is 0 — yet
`revert_count` is 1: the revert test in `analyzeRevisions` runs on every
parse-surviving revision, windowed or not, so the claim that only
in-window revisions contribute is false. -/
theorem revert_count_outside_window_cex :
    (analyzeRevisions 100000000
        [{ revid := 1, timestamp := some 94816000, user := "u",
           comment := "Revert edits", size := 0 }]).revertCount = 1
    ∧ (analyzeRevisions 100000000
        [{ revid := 1, timestamp := some 94816000, user := "u",
           comment := "Revert edits", size := 0 }]).recentEdits = 0
    ∧ ((94816000 : ℤ) ≤ 100000000 - 30 * 24 * 3600) := by
  refine ⟨by decide, by decide, by decide⟩

/-- C4 (amended): `revert_count` counts every fetched revision whose
timestamp parses and whose comment contains, case-insensitively, `revert`,
`rv `, `undo` or `undid` — regardless of whether the revision lies inside
the 30-day window. -/
theorem revert_count_counts_all_parsed (now : Int)
    (revisions : List WikipediaRevision) :
    (analyzeRevisions now revisions).revertCount =
      (revisions.filter
        (fun r => r.timestamp.isSome && isRevertComment r.comment)).length := by
  unfold analyzeRevisions
  dsimp only
  exact parsed_revert_filter_length revisions

/-- C5 (spec-modelled): the emission step — absent from the provided
sources — only signals entities more than 30 years gone; in particular an
entity whose `end_year` equals `current_year − 30` is never emitted, even
when the detector found its name or an alias in the page text. -/
theorem historical_entity_only_for_old (currentYear : Int) (text : String)
    (c : HistoricalEntityConflict) :
    (c ∈ emitHistoricalEntitySignals currentYear text →
      30 < currentYear - c.entity.endYear)
    ∧ (c.entity.endYear = currentYear - 30 →
        c ∉ emitHistoricalEntitySignals currentYear text) := by
  constructor
  · intro h
    have := (List.mem_filter.mp h).2
    exact of_decide_eq_true this
  · intro hyr h
    have := of_decide_eq_true (List.mem_filter.mp h).2
    rw [hyr] at this
    omega

/-- Witness for C5: with the current year 2023, Czechoslovakia
(`end_year` 1993 = 2023 − 30) is detected in the text but excluded from
the emitted signals. -/
theorem historical_entity_only_for_old_witness :
    ({ entity := { name := "Czechoslovakia",
                   aliases := ["Československo", "ČSSR"],
                   endYear := 1993,
                   description := "Czechoslovakia (1918-1993)" },
       occurrences := 1 } : HistoricalEntityConflict)
      ∈ DetectHistoricalEntities "czechoslovakia was dissolved in 1993"
    ∧ ({ entity := { name := "Czechoslovakia",
                     aliases := ["Československo", "ČSSR"],
                     endYear := 1993,
                     description := "Czechoslovakia (1918-1993)" },
         occurrences := 1 } : HistoricalEntityConflict)
        ∉ emitHistoricalEntitySignals 2023 "czechoslovakia was dissolved in 1993" :=
  ⟨by decide,
    (historical_entity_only_for_old 2023 "czechoslovakia was dissolved in 1993"
      { entity := { name := "Czechoslovakia",
                    aliases := ["Československo", "ČSSR"],
                    endYear := 1993,
                    description := "Czechoslovakia (1918-1993)" },
        occurrences := 1 }).2 (by decide)⟩

/-- Helper for C8: on a completed response, the accessibility and dead
flags are exactly the status tests, independent of the redirect and
`Last-Modified` post-processing. -/
lemma validateSingle_ok_flags (classify : String → AuthorityTier)
    (nowHours : ℚ) (e : Evidence) (resp : HTTPResponse) :
    (validateSingle classify nowHours e (.ok resp)).isAccessible
        = decide (200 ≤ resp.statusCode ∧ resp.statusCode < 400)
      ∧ (validateSingle classify nowHours e (.ok resp)).isDead
        = (decide ¬(200 ≤ resp.statusCode ∧ resp.statusCode < 400)
            && decide (resp.statusCode = 404 ∨ resp.statusCode = 410)) := by
  unfold validateSingle
  dsimp only
  split_ifs <;> cases hlm : resp.lastModified <;> simp_all

/-- C8: for a probe whose HTTP request completes, the result is accessible
exactly when the status is in `[200, 400)` and dead exactly when the
status is 404 or 410; a failed network call is always dead; and no
outcome whatsoever yields a result that is both accessible and dead. -/
theorem validate_single_accessible_dead (classify : String → AuthorityTier)
    (nowHours : ℚ) (e : Evidence) :
    (∀ resp : HTTPResponse,
      ((validateSingle classify nowHours e (.ok resp)).isAccessible = true ↔
          200 ≤ resp.statusCode ∧ resp.statusCode < 400)
        ∧ ((validateSingle classify nowHours e (.ok resp)).isDead = true ↔
          resp.statusCode = 404 ∨ resp.statusCode = 410))
    ∧ (∀ msg, (validateSingle classify nowHours e (.networkError msg)).isDead = true)
    ∧ (∀ o, (validateSingle classify nowHours e o).isAccessible = true →
        (validateSingle classify nowHours e o).isDead = false) := by
  refine ⟨?_, ?_, ?_⟩
  · intro resp
    obtain ⟨hacc, hdead⟩ := validateSingle_ok_flags classify nowHours e resp
    constructor
    · rw [hacc]
      exact decide_eq_true_iff
    · rw [hdead]
      simp only [Bool.and_eq_true, decide_eq_true_iff]
      constructor
      · exact fun h => h.2
      · intro h
        refine ⟨?_, h⟩
        rcases h with h | h <;> omega
  · intro msg
    rfl
  · intro o
    cases o with
    | createError msg =>
        intro h
        simp [validateSingle] at h
    | networkError msg =>
        intro h
        simp [validateSingle] at h
    | ok resp =>
        intro h
        obtain ⟨hacc, hdead⟩ := validateSingle_ok_flags classify nowHours e resp
        rw [hacc] at h
        rw [hdead]
        simp [of_decide_eq_true h]

/-- Witness for C8: a 200 response on a concrete probe is accessible, and
by the theorem it is therefore not dead. -/
theorem validate_single_accessible_dead_witness :
    (validateSingle (fun _ => TierTertiary) 0 { url := "https://x" }
        (.ok { statusCode := 200, finalURL := "https://x" })).isAccessible = true
    ∧ (validateSingle (fun _ => TierTertiary) 0 { url := "https://x" }
        (.ok { statusCode := 200, finalURL := "https://x" })).isDead = false :=
  ⟨by decide,
    (validate_single_accessible_dead (fun _ => TierTertiary) 0 { url := "https://x" }).2.2
      (.ok { statusCode := 200, finalURL := "https://x" }) (by decide)⟩

/-- C9: the retry wrapper runs at most 3 probe attempts; the returned
result is the last attempt's; every attempt after the first was preceded
by a retryable result (5xx, 429 or a transient network error message);
stopping before the third attempt means the last result was not
retryable; the sleeps are the prefix of `[1s, 2s]` matching the number of
retries; and three retryable results in a row exhaust the budget and
return the third attempt's result. -/
theorem retry_terminates_after_three (classify : String → AuthorityTier)
    (outcomes : Nat → ProbeOutcome) (nowHours : ℚ) (e : Evidence) :
    (validateSingleWithRetry classify outcomes nowHours e).attempts ≤ 3
    ∧ (validateSingleWithRetry classify outcomes nowHours e).result =
        validateSingle classify nowHours e
          (outcomes ((validateSingleWithRetry classify outcomes nowHours e).attempts - 1))
    ∧ (∀ i, i + 1 < (validateSingleWithRetry classify outcomes nowHours e).attempts →
        isRetryableValidationResult
          (validateSingle classify nowHours e (outcomes i)) = true)
    ∧ ((validateSingleWithRetry classify outcomes nowHours e).attempts < 3 →
        isRetryableValidationResult
          (validateSingle classify nowHours e
            (outcomes ((validateSingleWithRetry classify outcomes nowHours e).attempts - 1)))
          = false)
    ∧ (validateSingleWithRetry classify outcomes nowHours e).sleeps =
        [1, 2].take ((validateSingleWithRetry classify outcomes nowHours e).attempts - 1)
    ∧ ((∀ i, i < 3 →
          isRetryableValidationResult
            (validateSingle classify nowHours e (outcomes i)) = true) →
        (validateSingleWithRetry classify outcomes nowHours e).attempts = 3
          ∧ (validateSingleWithRetry classify outcomes nowHours e).result =
              validateSingle classify nowHours e (outcomes 2)) := by
  have hunfold : validateSingleWithRetry classify outcomes nowHours e =
      retryFrom (fun a => validateSingle classify nowHours e (outcomes a)) 0 2 := rfl
  by_cases h0 : isRetryableValidationResult (validateSingle classify nowHours e (outcomes 0))
  · by_cases h1 : isRetryableValidationResult (validateSingle classify nowHours e (outcomes 1))
    · have hval : validateSingleWithRetry classify outcomes nowHours e =
          { result := validateSingle classify nowHours e (outcomes 2),
            attempts := 3, sleeps := [1, 2] } := by
        rw [hunfold]
        unfold retryFrom
        rw [if_pos h0]
        unfold retryFrom
        rw [if_pos h1]
        unfold retryFrom
        rfl
      rw [hval]
      dsimp only
      refine ⟨by omega, rfl, ?_, by omega, rfl, fun _ => ⟨rfl, rfl⟩⟩
      intro i hi
      have : i = 0 ∨ i = 1 := by omega
      rcases this with rfl | rfl
      · exact h0
      · exact h1
    · have hval : validateSingleWithRetry classify outcomes nowHours e =
          { result := validateSingle classify nowHours e (outcomes 1),
            attempts := 2, sleeps := [1] } := by
        rw [hunfold]
        unfold retryFrom
        rw [if_pos h0]
        unfold retryFrom
        rw [if_neg h1]
        rfl
      rw [hval]
      dsimp only
      refine ⟨by omega, rfl, ?_, fun _ => by simpa using h1, rfl, ?_⟩
      · intro i hi
        have : i = 0 := by omega
        rcases this with rfl
        exact h0
      · intro hall
        exact absurd (hall 1 (by omega)) h1
  · have hval : validateSingleWithRetry classify outcomes nowHours e =
        { result := validateSingle classify nowHours e (outcomes 0),
          attempts := 1, sleeps := [] } := by
      rw [hunfold]
      unfold retryFrom
      rw [if_neg h0]
    rw [hval]
    dsimp only
    refine ⟨by omega, rfl, ?_, fun _ => by simpa using h0, rfl, ?_⟩
    · intro i hi
      exact absurd hi (by omega)
    · intro hall
      exact absurd (hall 0 (by omega)) h0

/-- Witness for C9: a probe that answers 503 on every attempt is retried
to exhaustion — three attempts, and the third attempt's result is
returned. -/
theorem retry_terminates_after_three_witness :
    (validateSingleWithRetry (fun _ => TierTertiary)
        (fun _ => .ok { statusCode := 503, finalURL := "https://x" }) 0
        { url := "https://x" }).attempts = 3
    ∧ (validateSingleWithRetry (fun _ => TierTertiary)
        (fun _ => .ok { statusCode := 503, finalURL := "https://x" }) 0
        { url := "https://x" }).result =
      validateSingle (fun _ => TierTertiary) 0 { url := "https://x" }
        (.ok { statusCode := 503, finalURL := "https://x" }) :=
  (retry_terminates_after_three (fun _ => TierTertiary)
      (fun _ => .ok { statusCode := 503, finalURL := "https://x" }) 0
      { url := "https://x" }).2.2.2.2.2
    (fun i _ => by decide)

/-- Helper for C2: every branch of `validateSingle` carries the probed
evidence URL. -/
lemma validateSingle_url (classify : String → AuthorityTier) (nowHours : ℚ)
    (e : Evidence) (o : ProbeOutcome) :
    (validateSingle classify nowHours e o).url = e.url := by
  cases o with
  | createError msg => rfl
  | networkError msg => rfl
  | ok resp =>
      unfold validateSingle
      dsimp only
      split_ifs <;> cases hlm : resp.lastModified <;> rfl

/-- Helper for C2: the retry loop returns the result of one of the probe
attempts. -/
lemma retryFrom_result_exists (probe : Nat → ValidationResult) (attempt fuel : Nat) :
    ∃ j, (retryFrom probe attempt fuel).result = probe j := by
  induction fuel generalizing attempt with
  | zero => exact ⟨attempt, rfl⟩
  | succ fuel ih =>
      unfold retryFrom
      dsimp only
      by_cases h : isRetryableValidationResult (probe attempt)
      · rw [if_pos h]
        obtain ⟨j, hj⟩ := ih (attempt + 1)
        exact ⟨j, hj⟩
      · rw [if_neg h]
        exact ⟨attempt, rfl⟩

/-- C2: `Validate` returns exactly one result per evidence entry, in input
order — the i-th result carries the i-th evidence URL — and every entry
whose goroutine observed cancellation before its probe began is exactly
the zero-valued `{url, accessible:false, error:"context cancelled"}`
record. -/
theorem validate_aligns_with_evidence (classify : String → AuthorityTier)
    (outcomes : Nat → Nat → ProbeOutcome) (nowHours : ℚ)
    (cancelled : Nat → Bool) (evidence : List Evidence) :
    (Validate classify outcomes nowHours cancelled evidence).length = evidence.length
    ∧ (∀ i, i < evidence.length →
        ((Validate classify outcomes nowHours cancelled evidence).getD i
            ({} : ValidationResult)).url =
          (evidence.getD i ({} : Evidence)).url)
    ∧ (∀ i, i < evidence.length → cancelled i = true →
        (Validate classify outcomes nowHours cancelled evidence).getD i
            ({} : ValidationResult) =
          cancelledResult (evidence.getD i ({} : Evidence))) := by
  by_cases hlen : evidence.length = 0
  · unfold Validate
    rw [if_pos hlen]
    refine ⟨hlen.symm, ?_, ?_⟩
    · intro i hi
      rw [hlen] at hi
      exact absurd hi (by omega)
    · intro i hi
      rw [hlen] at hi
      exact absurd hi (by omega)
  · have hval : Validate classify outcomes nowHours cancelled evidence =
        List.ofFn (fun i : Fin evidence.length =>
          if cancelled i then cancelledResult (evidence.get i)
          else (validateSingleWithRetry classify (outcomes i) nowHours
            (evidence.get i)).result) := by
      unfold Validate
      rw [if_neg hlen]
    have hgetD : ∀ i (hi : i < evidence.length),
        (Validate classify outcomes nowHours cancelled evidence).getD i
            ({} : ValidationResult) =
          (if cancelled i then cancelledResult (evidence.get ⟨i, hi⟩)
            else (validateSingleWithRetry classify (outcomes i) nowHours
              (evidence.get ⟨i, hi⟩)).result) := by
      intro i hi
      rw [hval, List.getD_eq_get?, List.get?_ofFn]
      unfold List.ofFnNthVal
      rw [dif_pos hi]
      rfl
    have hgetDe : ∀ i (hi : i < evidence.length),
        evidence.getD i ({} : Evidence) = evidence.get ⟨i, hi⟩ := by
      intro i hi
      rw [List.getD_eq_get?, List.get?_eq_get hi]
      rfl
    refine ⟨?_, ?_, ?_⟩
    · rw [hval, List.length_ofFn]
    · intro i hi
      rw [hgetD i hi, hgetDe i hi]
      by_cases hc : cancelled i = true
      · rw [if_pos hc]
        rfl
      · rw [if_neg hc]
        obtain ⟨j, hj⟩ := retryFrom_result_exists
          (fun a => validateSingle classify nowHours (evidence.get ⟨i, hi⟩)
            ((outcomes i) a)) 0 (validateMaxRetries - 1)
        have : (validateSingleWithRetry classify (outcomes i) nowHours
            (evidence.get ⟨i, hi⟩)).result =
          validateSingle classify nowHours (evidence.get ⟨i, hi⟩) ((outcomes i) j) := hj
        rw [this, validateSingle_url]
    · intro i hi hc
      rw [hgetD i hi, hgetDe i hi, if_pos hc]

/-- Witness for C2 on two evidence entries, the first of which observed
cancellation: the list has length 2, the first slot is exactly the
cancelled marker for the first URL, and the second slot carries the second
URL. -/
theorem validate_aligns_with_evidence_witness :
    (Validate (fun _ => TierTertiary)
        (fun _ _ => .ok { statusCode := 200, finalURL := "https://b" }) 0
        (fun i => i == 0) [{ url := "https://a" }, { url := "https://b" }]).length = 2
    ∧ (Validate (fun _ => TierTertiary)
        (fun _ _ => .ok { statusCode := 200, finalURL := "https://b" }) 0
        (fun i => i == 0) [{ url := "https://a" }, { url := "https://b" }]).getD 0
          ({} : ValidationResult) =
        cancelledResult { url := "https://a" }
    ∧ ((Validate (fun _ => TierTertiary)
        (fun _ _ => .ok { statusCode := 200, finalURL := "https://b" }) 0
        (fun i => i == 0) [{ url := "https://a" }, { url := "https://b" }]).getD 1
          ({} : ValidationResult)).url = "https://b" :=
  ⟨(validate_aligns_with_evidence (fun _ => TierTertiary)
      (fun _ _ => .ok { statusCode := 200, finalURL := "https://b" }) 0
      (fun i => i == 0) [{ url := "https://a" }, { url := "https://b" }]).1,
    (validate_aligns_with_evidence (fun _ => TierTertiary)
      (fun _ _ => .ok { statusCode := 200, finalURL := "https://b" }) 0
      (fun i => i == 0) [{ url := "https://a" }, { url := "https://b" }]).2.2 0
      (by decide) (by decide),
    (validate_aligns_with_evidence (fun _ => TierTertiary)
      (fun _ _ => .ok { statusCode := 200, finalURL := "https://b" }) 0
      (fun i => i == 0) [{ url := "https://a" }, { url := "https://b" }]).2.1 1
      (by decide)⟩

end Entropia
